import Mathlib

/-!
Shallow embedding of the railway-dashboard data layer: the backend wire
records, the backend→UI and UI→backend transforms, the polling hook's
state machine (`fetchLiveData`, the 30-second timer, `handleTrainAction`)
and the HTTP client's `request` method.  JavaScript `Date.now()` is made
explicit as a `now : Int` parameter (milliseconds), JS `x || d` truthiness
on strings/numbers is modelled by dedicated helpers, and the network is an
explicit outcome value.
-/

/-- Backend train record (`BackendTrain` in the API layer). -/
structure BackendTrain where
  id : String
  priority : Int
  planned_departure : Int
  route_sections : List String
  due_time : Option Int
  current_delay_minutes : Option Int
deriving DecidableEq

/-- Backend section record (`BackendSection`): the optional conflict maps
are opaque pass-through data, modelled as association lists. -/
structure BackendSection where
  id : String
  platform_capacity : Option Int
  conflicts_with : Option (List (String × Int))
  conflict_groups : Option (List (String × Int))
deriving DecidableEq

/-- Backend state: trains plus sections. -/
structure BackendState where
  trains : List BackendTrain
  sections : List BackendSection
deriving DecidableEq

/-- One entry of `predicted_conflicts` in a `PredictionResponse`. -/
structure PredictedConflict where
  train_ids : List String
  section_id : String
  predicted_conflict_time : Int
deriving DecidableEq

/-- `PredictionResponse` from the `/predict` endpoint. -/
structure PredictionResponse where
  predicted_delay_minutes : List (String × Int)
  predicted_conflicts : List PredictedConflict
deriving DecidableEq

/-- UI train projection produced by `transformBackendToFrontend`.
`status` is kept as the literal string the source assigns; `eta` is the
absolute timestamp in milliseconds (the source stores its ISO rendering). -/
structure FrontendTrain where
  id : String
  name : String
  status : String
  currentLocation : String
  delay : Int
  nextStation : String
  eta : Int
deriving DecidableEq

/-- UI conflict record produced by the conflict mapping in `fetchLiveData`. -/
structure FrontendConflict where
  id : String
  trains : List String
  location : String
  severity : String
  timeToConflict : Int
  aiResolution : String
deriving DecidableEq

/-- JS `x || d` for an optional string `x`: `undefined` and the empty
string are falsy, so both fall through to the default. -/
def orElseStr (x : Option String) (d : String) : String :=
  match x with
  | none => d
  | some s => if s = "" then d else s

/-- `train.current_delay_minutes && train.current_delay_minutes > 0 ?
'delayed' : 'on-time'`: `undefined` and `0` are falsy and short-circuit to
`'on-time'`; otherwise the comparison `> 0` decides. -/
def statusOf (cdm : Option Int) : String :=
  match cdm with
  | none => "on-time"
  | some d => if d = 0 then "on-time" else if 0 < d then "delayed" else "on-time"

/-- One train of `transformBackendToFrontend` (the body of the `.map`). -/
def transformTrain (now : Int) (t : BackendTrain) : FrontendTrain :=
  { id := t.id
    name := "Train " ++ t.id
    status := statusOf t.current_delay_minutes
    currentLocation := orElseStr t.route_sections[0]? "Unknown"
    delay := t.current_delay_minutes.getD 0
    nextStation := orElseStr t.route_sections[1]? (orElseStr t.route_sections[0]? "Terminal")
    eta := now + t.due_time.getD 0 * 1000 }

/-- Result shape of `transformBackendToFrontend`. -/
structure FrontendView where
  trains : List FrontendTrain
  sections : List BackendSection
deriving DecidableEq

/-- `transformBackendToFrontend`, with transform time `now` explicit. -/
def transformBackendToFrontend (now : Int) (backendState : BackendState) : FrontendView :=
  { trains := backendState.trains.map (transformTrain now)
    sections := backendState.sections }

/-- `transformFrontendToBackend`: fabricates constant priority/departure,
a two-element route from the display locations, re-derives `due_time` from
the ETA (`Math.floor` is `Int.fdiv`), and a hard-coded three-section
topology. -/
def transformFrontendToBackend (now : Int) (trains : List FrontendTrain) : BackendState :=
  { trains := trains.map fun train =>
      { id := train.id
        priority := 1
        planned_departure := 0
        route_sections := [train.currentLocation, train.nextStation]
        due_time := some (Int.fdiv (train.eta - now) 1000)
        current_delay_minutes := some train.delay }
    sections :=
      [ { id := "S1", platform_capacity := some 1, conflicts_with := none, conflict_groups := none }
      , { id := "S2", platform_capacity := some 1, conflicts_with := none, conflict_groups := none }
      , { id := "S3", platform_capacity := some 1, conflicts_with := none, conflict_groups := none } ] }

/-- `Array.prototype.join(', ')` on the train-id list. -/
def joinComma : List String → String
  | [] => ""
  | [x] => x
  | x :: y :: ys => x ++ ", " ++ joinComma (y :: ys)

/-- The body of the conflict `.map` in `fetchLiveData`, at index `index`. -/
def mkConflict (index : Nat) (c : PredictedConflict) : FrontendConflict :=
  { id := "conflict-" ++ toString index
    trains := c.train_ids
    location := c.section_id
    severity := "medium"
    timeToConflict := c.predicted_conflict_time
    aiResolution := "Reroute " ++ joinComma c.train_ids ++ " through alternative sections" }

/-- `.map((conflict, index) => ...)` with the running index explicit. -/
def mapConflictsFrom (i : Nat) : List PredictedConflict → List FrontendConflict
  | [] => []
  | c :: cs => mkConflict i c :: mapConflictsFrom (i + 1) cs

/-- The conflict mapping of `fetchLiveData`, starting at index 0. -/
def mapConflicts (l : List PredictedConflict) : List FrontendConflict :=
  mapConflictsFrom 0 l

/-- Observable state held by the `useRealTimeData` hook. -/
structure HookState where
  trains : List FrontendTrain
  conflicts : List FrontendConflict
  isConnected : Bool
  lastUpdate : Int
  loading : Bool
  error : Option String
deriving DecidableEq

/-- How one run of `fetchLiveData` resolves: both awaited calls succeed,
the snapshot call throws, or the snapshot succeeds and the predict call
throws (in which case `setTrains` has already run).  The message is the
string the `catch` block derives from the thrown value. -/
inductive FetchOutcome where
  | bothOk (snapshot : BackendState) (pred : PredictionResponse)
  | snapshotThrows (msg : String)
  | predictThrows (snapshot : BackendState) (msg : String)
deriving DecidableEq

/-- The synchronous head of `fetchLiveData`: `setLoading(true)` then
`setError(null)`. -/
def fetchStart (s : HookState) : HookState :=
  { s with loading := true, error := none }

/-- The remainder of `fetchLiveData` after the awaits resolve: the `try`
body's state updates on success, the `catch` block on a throw, and the
`finally` block's `setLoading(false)` in every case. -/
def fetchSettle (s : HookState) (o : FetchOutcome) (now : Int) : HookState :=
  match o with
  | .bothOk snapshot pred =>
      { s with trains := (transformBackendToFrontend now snapshot).trains
               conflicts := mapConflicts pred.predicted_conflicts
               isConnected := true
               lastUpdate := now
               loading := false }
  | .snapshotThrows msg =>
      { s with error := some msg, isConnected := false, loading := false }
  | .predictThrows snapshot msg =>
      { s with trains := (transformBackendToFrontend now snapshot).trains
               error := some msg
               isConnected := false
               loading := false }

/-- One complete run of `fetchLiveData` as a state transformer. -/
def fetchLiveData (s : HookState) (o : FetchOutcome) (now : Int) : HookState :=
  fetchSettle (fetchStart s) o now

/-- One firing of the 30-second interval callback: it calls
`fetchLiveData` only under `if (isConnected)`.  The boolean records
whether a fetch was triggered by this tick. -/
def timerTick (s : HookState) (o : FetchOutcome) (now : Int) : HookState × Bool :=
  if s.isConnected then (fetchLiveData s o now, true) else (s, false)

/-- The per-train body of the optimistic `setTrains` update inside
`handleTrainAction`. -/
def updateTrain (trainId action : String) (train : FrontendTrain) : FrontendTrain :=
  if train.id = trainId then
    match action with
    | "hold" => { train with status := "held" }
    | "expedite" => { train with status := "expedited", delay := max 0 (train.delay - 5) }
    | "reroute" => { train with status := "rerouting" }
    | _ => train
  else train

/-- The optimistic local update performed by `handleTrainAction` before it
refetches. -/
def applyTrainAction (trainId action : String) (trains : List FrontendTrain) : List FrontendTrain :=
  trains.map (updateTrain trainId action)

/-- An HTTP response as `APIService.request` observes it: status line plus
the already-parsed JSON body (`response.json()` is opaque here). -/
structure HttpResponse (α : Type) where
  status : Nat
  statusText : String
  json : α
deriving DecidableEq

/-- `Response.ok`: status in the 2xx range. -/
def respOk {α : Type} (r : HttpResponse α) : Bool :=
  decide (200 ≤ r.status) && decide (r.status < 300)

/-- `APIService.request`: the network is an oracle from attempt number to
response; the method awaits a single `fetch`, so only `oracle 0` is ever
consulted.  A non-ok status throws the templated error, otherwise the
parsed body is returned. -/
def request {α : Type} (oracle : Nat → HttpResponse α) : Except String α :=
  let r := oracle 0
  if respOk r then Except.ok r.json
  else Except.error ("API request failed: " ++ toString r.status ++ " " ++ r.statusText)

/-- `needle` occurs contiguously inside `hay`. -/
def containsSeg {α : Type} (needle hay : List α) : Prop :=
  ∃ pre post, hay = pre ++ needle ++ post

theorem String.data_app (a b : String) : (a ++ b).data = a.data ++ b.data := by
  cases a; cases b; rfl

theorem containsSeg_refl {α : Type} (l : List α) : containsSeg l l :=
  ⟨[], [], by simp⟩

theorem containsSeg_app_left {α : Type} {n h : List α} (l : List α)
    (hn : containsSeg n h) : containsSeg n (l ++ h) := by
  obtain ⟨pre, post, rfl⟩ := hn
  exact ⟨l ++ pre, post, by simp⟩

theorem containsSeg_app_right {α : Type} {n h : List α} (l : List α)
    (hn : containsSeg n h) : containsSeg n (h ++ l) := by
  obtain ⟨pre, post, rfl⟩ := hn
  exact ⟨pre, post ++ l, by simp⟩

theorem mem_containsSeg_joinComma {x : String} {l : List String}
    (hx : x ∈ l) : containsSeg x.data (joinComma l).data := by
  induction l with
  | nil => cases hx
  | cons y ys ih =>
    cases ys with
    | nil =>
      rcases List.mem_singleton.mp hx with rfl
      exact containsSeg_refl _
    | cons z zs =>
      rcases List.mem_cons.mp hx with rfl | hmem
      · show containsSeg x.data ((x ++ ", " ++ joinComma (z :: zs)).data)
        rw [String.data_app, String.data_app]
        exact containsSeg_app_right _ (containsSeg_app_right _ (containsSeg_refl _))
      · show containsSeg x.data ((y ++ ", " ++ joinComma (z :: zs)).data)
        rw [String.data_app, String.data_app]
        rw [List.append_assoc]
        exact containsSeg_app_left _ (containsSeg_app_left _ (ih hmem))

theorem mapConflictsFrom_getElem (i j : Nat) (l : List PredictedConflict)
    (c : PredictedConflict) (hj : l[j]? = some c) :
    (mapConflictsFrom i l)[j]? = some (mkConflict (i + j) c) := by
  induction l generalizing i j with
  | nil => simp at hj
  | cons d ds ih =>
    cases j with
    | zero => simp_all [mapConflictsFrom]
    | succ j =>
      simp only [List.getElem?_cons_succ] at hj
      have := ih (i + 1) j hj
      simpa [mapConflictsFrom, Nat.add_assoc, Nat.add_comm 1 j] using this

example : statusOf (some 7) = "delayed" := rfl
example : statusOf (some 0) = "on-time" := rfl
example : statusOf none = "on-time" := rfl
example : statusOf (some (-3)) = "on-time" := rfl

theorem statusOf_eq (cdm : Option Int) :
    (statusOf cdm = "delayed" ↔ ∃ d, cdm = some d ∧ 0 < d) ∧
    (statusOf cdm = "delayed" ∨ statusOf cdm = "on-time") := by
  constructor
  · constructor
    · intro h
      cases cdm with
      | none => exact absurd h (by decide)
      | some d =>
        refine ⟨d, rfl, ?_⟩
        by_contra hnp
        have hot : statusOf (some d) = "on-time" := by
          by_cases h0 : d = 0 <;> simp [statusOf, h0, hnp]
        rw [hot] at h
        exact absurd h (by decide)
    · rintro ⟨d, rfl, hpos⟩
      have h0 : d ≠ 0 := by omega
      simp [statusOf, h0, hpos]
  · cases cdm with
    | none => right; rfl
    | some d =>
      by_cases h0 : d = 0
      · right; simp [statusOf, h0]
      · by_cases hpos : 0 < d
        · left; simp [statusOf, h0, hpos]
        · right; simp [statusOf, h0, hpos]

/-- C1: for every backend train, the projected status is `delayed` exactly
when `current_delay_minutes` is present and positive, and `on-time`
otherwise; every train in the output of `transformBackendToFrontend` has
status in the two-element set, so `conflict` is never produced. -/
theorem transform_status_never_conflict :
    ∀ (backendState : BackendState) (now : Int),
      (∀ t ∈ backendState.trains,
        ((transformTrain now t).status = "delayed" ↔
          ∃ d, t.current_delay_minutes = some d ∧ 0 < d) ∧
        ((transformTrain now t).status = "delayed" ∨
          (transformTrain now t).status = "on-time")) ∧
      ∀ u ∈ (transformBackendToFrontend now backendState).trains,
        u.status = "delayed" ∨ u.status = "on-time" := by
  intro backendState now
  constructor
  · intro t _
    exact statusOf_eq t.current_delay_minutes
  · intro u hu
    obtain ⟨t, _, rfl⟩ := List.mem_map.mp hu
    exact (statusOf_eq t.current_delay_minutes).2

theorem transform_status_never_conflict_witness :
    ((transformTrain 0
        { id := "T1", priority := 1, planned_departure := 0,
          route_sections := ["S1", "S2"], due_time := none,
          current_delay_minutes := some 7 }).status = "delayed") ∧
    ((transformTrain 0
        { id := "T2", priority := 1, planned_departure := 0,
          route_sections := [], due_time := none,
          current_delay_minutes := none }).status = "delayed" ∨
     (transformTrain 0
        { id := "T2", priority := 1, planned_departure := 0,
          route_sections := [], due_time := none,
          current_delay_minutes := none }).status = "on-time") :=
  ⟨((transform_status_never_conflict
      { trains := [{ id := "T1", priority := 1, planned_departure := 0,
                     route_sections := ["S1", "S2"], due_time := none,
                     current_delay_minutes := some 7 }], sections := [] } 0).1
      _ (by simp)).1.mpr ⟨7, rfl, by decide⟩,
   (transform_status_never_conflict
      { trains := [{ id := "T2", priority := 1, planned_departure := 0,
                     route_sections := [], due_time := none,
                     current_delay_minutes := none }], sections := [] } 0).2
      _ (by simp [transformBackendToFrontend])⟩

/-- C4: `transformFrontendToBackend` always emits the hard-coded sections
S1/S2/S3 with capacity 1, and every emitted train has constant priority 1
and planned_departure 0, for every input train list. -/
theorem frontendToBackend_constants :
    ∀ (trains : List FrontendTrain) (now : Int),
      (transformFrontendToBackend now trains).sections =
        [ { id := "S1", platform_capacity := some 1, conflicts_with := none, conflict_groups := none }
        , { id := "S2", platform_capacity := some 1, conflicts_with := none, conflict_groups := none }
        , { id := "S3", platform_capacity := some 1, conflicts_with := none, conflict_groups := none } ] ∧
      ∀ bt ∈ (transformFrontendToBackend now trains).trains,
        bt.priority = 1 ∧ bt.planned_departure = 0 := by
  intro trains now
  refine ⟨rfl, ?_⟩
  intro bt hbt
  obtain ⟨t, _, rfl⟩ := List.mem_map.mp hbt
  exact ⟨rfl, rfl⟩

theorem frontendToBackend_constants_witness :
    (transformFrontendToBackend 0
        [{ id := "T1", name := "Train T1", status := "on-time",
           currentLocation := "S1", delay := 0, nextStation := "S2", eta := 0 }]).sections =
      [ { id := "S1", platform_capacity := some 1, conflicts_with := none, conflict_groups := none }
      , { id := "S2", platform_capacity := some 1, conflicts_with := none, conflict_groups := none }
      , { id := "S3", platform_capacity := some 1, conflicts_with := none, conflict_groups := none } ] ∧
    ({ id := "T1", priority := 1, planned_departure := 0,
       route_sections := ["S1", "S2"], due_time := some 0,
       current_delay_minutes := some 0 } : BackendTrain).priority = 1 :=
  ⟨(frontendToBackend_constants
      [{ id := "T1", name := "Train T1", status := "on-time",
         currentLocation := "S1", delay := 0, nextStation := "S2", eta := 0 }] 0).1,
   ((frontendToBackend_constants
      [{ id := "T1", name := "Train T1", status := "on-time",
         currentLocation := "S1", delay := 0, nextStation := "S2", eta := 0 }] 0).2
      _ (by simp [transformFrontendToBackend])).1⟩

/-- C9: a train with no route sections projects to `Unknown` / `Terminal`;
a train with a single non-empty section projects that section as both the
current location and the next station. -/
theorem transform_route_edge_cases :
    ∀ (t : BackendTrain) (now : Int),
      (t.route_sections = [] →
        (transformTrain now t).currentLocation = "Unknown" ∧
        (transformTrain now t).nextStation = "Terminal") ∧
      (∀ sec : String, sec ≠ "" → t.route_sections = [sec] →
        (transformTrain now t).currentLocation = sec ∧
        (transformTrain now t).nextStation = sec) := by
  intro t now
  constructor
  · intro h
    simp [transformTrain, orElseStr, h]
  · intro sec hne h
    simp [transformTrain, orElseStr, h, hne]

theorem transform_route_edge_cases_witness :
    ((transformTrain 0
        { id := "T1", priority := 1, planned_departure := 0,
          route_sections := [], due_time := none,
          current_delay_minutes := none }).currentLocation = "Unknown" ∧
     (transformTrain 0
        { id := "T1", priority := 1, planned_departure := 0,
          route_sections := [], due_time := none,
          current_delay_minutes := none }).nextStation = "Terminal") ∧
    ((transformTrain 0
        { id := "T1", priority := 1, planned_departure := 0,
          route_sections := ["S1"], due_time := none,
          current_delay_minutes := none }).currentLocation = "S1" ∧
     (transformTrain 0
        { id := "T1", priority := 1, planned_departure := 0,
          route_sections := ["S1"], due_time := none,
          current_delay_minutes := none }).nextStation = "S1") :=
  ⟨(transform_route_edge_cases
      { id := "T1", priority := 1, planned_departure := 0,
        route_sections := [], due_time := none,
        current_delay_minutes := none } 0).1 rfl,
   (transform_route_edge_cases
      { id := "T1", priority := 1, planned_departure := 0,
        route_sections := ["S1"], due_time := none,
        current_delay_minutes := none } 0).2 "S1" (by decide) rfl⟩

/-- C8: the projected ETA is the transform-time clock value plus
`due_time` (defaulted to 0) in milliseconds, so transforming the same
train at two different times yields two different ETAs. -/
theorem transform_eta_depends_on_now :
    ∀ (t : BackendTrain) (now : Int),
      (transformTrain now t).eta = now + t.due_time.getD 0 * 1000 ∧
      ∀ now' : Int, now ≠ now' →
        (transformTrain now t).eta ≠ (transformTrain now' t).eta := by
  intro t now
  refine ⟨rfl, ?_⟩
  intro now' hne heq
  simp only [transformTrain] at heq
  omega

theorem transform_eta_depends_on_now_witness :
    (transformTrain 0
        { id := "T1", priority := 1, planned_departure := 0,
          route_sections := [], due_time := some 5,
          current_delay_minutes := none }).eta ≠
      (transformTrain 1
        { id := "T1", priority := 1, planned_departure := 0,
          route_sections := [], due_time := some 5,
          current_delay_minutes := none }).eta :=
  (transform_eta_depends_on_now
      { id := "T1", priority := 1, planned_departure := 0,
        route_sections := [], due_time := some 5,
        current_delay_minutes := none } 0).2 1 (by decide)

/-- C2: every run of `fetchLiveData` raises `loading` at the start and
lowers it at the end in all outcomes; a fully successful run installs the
transformed trains and conflicts, sets `isConnected`, and leaves `error`
cleared; a run in which either awaited call throws records the error
message and drops `isConnected`. -/
theorem fetchLiveData_transitions :
    ∀ (s : HookState) (o : FetchOutcome) (now : Int),
      (fetchStart s).loading = true ∧
      (fetchLiveData s o now).loading = false ∧
      (match o with
       | .bothOk snapshot pred =>
           (fetchLiveData s o now).trains = (transformBackendToFrontend now snapshot).trains ∧
           (fetchLiveData s o now).conflicts = mapConflicts pred.predicted_conflicts ∧
           (fetchLiveData s o now).isConnected = true ∧
           (fetchLiveData s o now).error = none
       | .snapshotThrows msg =>
           (fetchLiveData s o now).error = some msg ∧
           (fetchLiveData s o now).isConnected = false
       | .predictThrows _ msg =>
           (fetchLiveData s o now).error = some msg ∧
           (fetchLiveData s o now).isConnected = false) := by
  intro s o now
  refine ⟨rfl, ?_, ?_⟩ <;> cases o <;> simp [fetchLiveData, fetchStart, fetchSettle]

/-- C3: the 30-second interval callback triggers a fetch only when
`isConnected` holds; on a disconnected state the tick performs no fetch
and leaves the state untouched. -/
theorem timerTick_only_when_connected :
    ∀ (s : HookState) (o : FetchOutcome) (now : Int),
      ((timerTick s o now).2 = true → s.isConnected = true) ∧
      (s.isConnected = false → timerTick s o now = (s, false)) := by
  intro s o now
  by_cases h : s.isConnected <;> simp [timerTick, h]

theorem timerTick_only_when_connected_witness :
    timerTick
        { trains := [], conflicts := [], isConnected := false,
          lastUpdate := 0, loading := false, error := none }
        (FetchOutcome.snapshotThrows "boom") 0 =
      ({ trains := [], conflicts := [], isConnected := false,
         lastUpdate := 0, loading := false, error := none }, false) :=
  (timerTick_only_when_connected
      { trains := [], conflicts := [], isConnected := false,
        lastUpdate := 0, loading := false, error := none }
      (FetchOutcome.snapshotThrows "boom") 0).2 rfl

/-- C6: the conflict mapping sends the entry at index `i` to a UI conflict
whose location is the entry's section id, whose time-to-conflict is the
predicted conflict time, whose train list is the entry's train ids, and
whose resolution string contains every one of those train ids. -/
theorem conflict_mapping_spec :
    ∀ (l : List PredictedConflict) (i : Nat) (c : PredictedConflict),
      l[i]? = some c →
      (mapConflicts l)[i]? = some (mkConflict i c) ∧
      (mkConflict i c).location = c.section_id ∧
      (mkConflict i c).timeToConflict = c.predicted_conflict_time ∧
      (mkConflict i c).trains = c.train_ids ∧
      ∀ tid ∈ c.train_ids,
        containsSeg tid.data (mkConflict i c).aiResolution.data := by
  intro l i c h
  refine ⟨?_, rfl, rfl, rfl, ?_⟩
  · have := mapConflictsFrom_getElem 0 i l c h
    simpa [mapConflicts] using this
  · intro tid htid
    show containsSeg tid.data
      ("Reroute " ++ joinComma c.train_ids ++ " through alternative sections").data
    rw [String.data_app, String.data_app, List.append_assoc]
    exact containsSeg_app_left _
      (containsSeg_app_right _ (mem_containsSeg_joinComma htid))

theorem conflict_mapping_spec_witness :
    (mkConflict 0 { train_ids := ["T1", "T2"], section_id := "S2",
                    predicted_conflict_time := 12 }).location = "S2" ∧
    (mkConflict 0 { train_ids := ["T1", "T2"], section_id := "S2",
                    predicted_conflict_time := 12 }).timeToConflict = 12 ∧
    containsSeg "T1".data
      (mkConflict 0 { train_ids := ["T1", "T2"], section_id := "S2",
                      predicted_conflict_time := 12 }).aiResolution.data ∧
    containsSeg "T2".data
      (mkConflict 0 { train_ids := ["T1", "T2"], section_id := "S2",
                      predicted_conflict_time := 12 }).aiResolution.data :=
  ⟨(conflict_mapping_spec
      [{ train_ids := ["T1", "T2"], section_id := "S2", predicted_conflict_time := 12 }]
      0 { train_ids := ["T1", "T2"], section_id := "S2", predicted_conflict_time := 12 }
      rfl).2.1,
   (conflict_mapping_spec
      [{ train_ids := ["T1", "T2"], section_id := "S2", predicted_conflict_time := 12 }]
      0 { train_ids := ["T1", "T2"], section_id := "S2", predicted_conflict_time := 12 }
      rfl).2.2.1,
   (conflict_mapping_spec
      [{ train_ids := ["T1", "T2"], section_id := "S2", predicted_conflict_time := 12 }]
      0 { train_ids := ["T1", "T2"], section_id := "S2", predicted_conflict_time := 12 }
      rfl).2.2.2.2 "T1" (by decide),
   (conflict_mapping_spec
      [{ train_ids := ["T1", "T2"], section_id := "S2", predicted_conflict_time := 12 }]
      0 { train_ids := ["T1", "T2"], section_id := "S2", predicted_conflict_time := 12 }
      rfl).2.2.2.2 "T2" (by decide)⟩

/-- C7: `request` consults only the first response of the oracle (a single
attempt), returns the parsed body on a 2xx status, and on any other status
fails with the templated message, which contains the numeric HTTP
status. -/
theorem request_single_attempt_spec {α : Type} :
    ∀ oracle : Nat → HttpResponse α,
      (∀ oracle' : Nat → HttpResponse α,
        oracle 0 = oracle' 0 → request oracle = request oracle') ∧
      (respOk (oracle 0) = true → request oracle = Except.ok (oracle 0).json) ∧
      (respOk (oracle 0) = false →
        request oracle =
          Except.error ("API request failed: " ++ toString (oracle 0).status
            ++ " " ++ (oracle 0).statusText) ∧
        containsSeg (toString (oracle 0).status).data
          ("API request failed: " ++ toString (oracle 0).status
            ++ " " ++ (oracle 0).statusText).data) := by
  intro oracle
  refine ⟨?_, ?_, ?_⟩
  · intro oracle' h
    unfold request
    rw [h]
  · intro h
    simp [request, h]
  · intro h
    refine ⟨by simp [request, h], ?_⟩
    rw [String.data_app, String.data_app, String.data_app,
      List.append_assoc, List.append_assoc]
    exact containsSeg_app_left _ (containsSeg_app_right _ (containsSeg_refl _))

theorem request_single_attempt_spec_witness :
    (request (fun _ => ({ status := 200, statusText := "OK", json := 7 } : HttpResponse Nat)) =
      Except.ok 7) ∧
    (request (fun _ => ({ status := 404, statusText := "Not Found", json := 7 } : HttpResponse Nat)) =
      Except.error ("API request failed: " ++ toString (404 : Nat) ++ " " ++ "Not Found")) ∧
    (request (fun _ => ({ status := 200, statusText := "OK", json := 7 } : HttpResponse Nat)) =
      request (fun n =>
        if n = 0 then ({ status := 200, statusText := "OK", json := 7 } : HttpResponse Nat)
        else { status := 500, statusText := "Server Error", json := 9 })) :=
  ⟨(request_single_attempt_spec
      (fun _ => ({ status := 200, statusText := "OK", json := 7 } : HttpResponse Nat))).2.1
      (by decide),
   ((request_single_attempt_spec
      (fun _ => ({ status := 404, statusText := "Not Found", json := 7 } : HttpResponse Nat))).2.2
      (by decide)).1,
   (request_single_attempt_spec
      (fun _ => ({ status := 200, statusText := "OK", json := 7 } : HttpResponse Nat))).1
      _ rfl⟩

/-- C5: the transforms are not mutually inverse: there is a backend state
that a backend→UI→backend round trip fails to reproduce. -/
theorem roundTrip_not_identity :
    ∃ (s : BackendState) (now : Int),
      transformFrontendToBackend now (transformBackendToFrontend now s).trains ≠ s := by
  refine ⟨{ trains := [{ id := "T1", priority := 2, planned_departure := 5,
                         route_sections := ["A", "B", "C"], due_time := some 10,
                         current_delay_minutes := some 3 }], sections := [] }, 0, ?_⟩
  intro h
  exact absurd (congrArg BackendState.sections h) (by decide)

theorem updateTrain_ne_id {t : FrontendTrain} {trainId action : String}
    (h : t.id ≠ trainId) : updateTrain trainId action t = t := by
  simp [updateTrain, h]

theorem updateTrain_frame_fields (trainId action : String) (t : FrontendTrain) :
    (updateTrain trainId action t).id = t.id ∧
    (updateTrain trainId action t).name = t.name ∧
    (updateTrain trainId action t).currentLocation = t.currentLocation ∧
    (updateTrain trainId action t).nextStation = t.nextStation ∧
    (updateTrain trainId action t).eta = t.eta := by
  unfold updateTrain
  split
  · split <;> simp
  · simp

theorem updateTrain_other_action {trainId action : String} {t : FrontendTrain}
    (h1 : action ≠ "hold") (h2 : action ≠ "expedite") (h3 : action ≠ "reroute") :
    updateTrain trainId action t = t := by
  unfold updateTrain
  split
  · split
    · exact absurd rfl h1
    · exact absurd rfl h2
    · exact absurd rfl h3
    · rfl
  · rfl

/-- C10: the optimistic update of `handleTrainAction` is positional and
frame-preserving: every list slot maps through `updateTrain`; a train
whose id differs from the target is unchanged; on the targeted train only
`status` and `delay` can change; an unrecognised action changes nothing;
and `expedite` sets the delay to `max 0 (delay - 5)`, which is never
negative. -/
theorem trainAction_frame :
    ∀ (trains : List FrontendTrain) (trainId action : String) (i : Nat) (t : FrontendTrain),
      trains[i]? = some t →
      (applyTrainAction trainId action trains)[i]? = some (updateTrain trainId action t) ∧
      (t.id ≠ trainId → updateTrain trainId action t = t) ∧
      ((updateTrain trainId action t).id = t.id ∧
       (updateTrain trainId action t).name = t.name ∧
       (updateTrain trainId action t).currentLocation = t.currentLocation ∧
       (updateTrain trainId action t).nextStation = t.nextStation ∧
       (updateTrain trainId action t).eta = t.eta) ∧
      (action ≠ "hold" → action ≠ "expedite" → action ≠ "reroute" →
        updateTrain trainId action t = t) ∧
      (action = "expedite" → t.id = trainId →
        (updateTrain trainId action t).delay = max 0 (t.delay - 5) ∧
        0 ≤ (updateTrain trainId action t).delay) := by
  intro trains trainId action i t hit
  refine ⟨?_, fun h => updateTrain_ne_id h, updateTrain_frame_fields trainId action t,
    fun h1 h2 h3 => updateTrain_other_action h1 h2 h3, ?_⟩
  · simp [applyTrainAction, hit]
  · rintro rfl hid
    constructor
    · simp [updateTrain, hid]
    · simp [updateTrain, hid]

theorem trainAction_frame_witness :
    ((applyTrainAction "T1" "expedite"
        [{ id := "T1", name := "Train T1", status := "on-time",
           currentLocation := "A", delay := 3, nextStation := "B", eta := 0 }])[0]? =
      some (updateTrain "T1" "expedite"
        { id := "T1", name := "Train T1", status := "on-time",
          currentLocation := "A", delay := 3, nextStation := "B", eta := 0 }) ∧
     (updateTrain "T1" "expedite"
        { id := "T1", name := "Train T1", status := "on-time",
          currentLocation := "A", delay := 3, nextStation := "B", eta := 0 }).delay =
        max 0 (3 - 5) ∧
     0 ≤ (updateTrain "T1" "expedite"
        { id := "T1", name := "Train T1", status := "on-time",
          currentLocation := "A", delay := 3, nextStation := "B", eta := 0 }).delay) ∧
    (updateTrain "T1" "hold"
        { id := "T2", name := "Train T2", status := "on-time",
          currentLocation := "A", delay := 3, nextStation := "B", eta := 0 } =
      { id := "T2", name := "Train T2", status := "on-time",
        currentLocation := "A", delay := 3, nextStation := "B", eta := 0 }) ∧
    (updateTrain "T1" "noop"
        { id := "T1", name := "Train T1", status := "on-time",
          currentLocation := "A", delay := 3, nextStation := "B", eta := 0 } =
      { id := "T1", name := "Train T1", status := "on-time",
        currentLocation := "A", delay := 3, nextStation := "B", eta := 0 }) :=
  ⟨⟨(trainAction_frame
      [{ id := "T1", name := "Train T1", status := "on-time",
         currentLocation := "A", delay := 3, nextStation := "B", eta := 0 }]
      "T1" "expedite" 0
      { id := "T1", name := "Train T1", status := "on-time",
        currentLocation := "A", delay := 3, nextStation := "B", eta := 0 } rfl).1,
    ((trainAction_frame
      [{ id := "T1", name := "Train T1", status := "on-time",
         currentLocation := "A", delay := 3, nextStation := "B", eta := 0 }]
      "T1" "expedite" 0
      { id := "T1", name := "Train T1", status := "on-time",
        currentLocation := "A", delay := 3, nextStation := "B", eta := 0 } rfl).2.2.2.2
      rfl rfl).1,
    ((trainAction_frame
      [{ id := "T1", name := "Train T1", status := "on-time",
         currentLocation := "A", delay := 3, nextStation := "B", eta := 0 }]
      "T1" "expedite" 0
      { id := "T1", name := "Train T1", status := "on-time",
        currentLocation := "A", delay := 3, nextStation := "B", eta := 0 } rfl).2.2.2.2
      rfl rfl).2⟩,
   (trainAction_frame
      [{ id := "T2", name := "Train T2", status := "on-time",
         currentLocation := "A", delay := 3, nextStation := "B", eta := 0 }]
      "T1" "hold" 0
      { id := "T2", name := "Train T2", status := "on-time",
        currentLocation := "A", delay := 3, nextStation := "B", eta := 0 } rfl).2.1
      (by decide),
   (trainAction_frame
      [{ id := "T1", name := "Train T1", status := "on-time",
         currentLocation := "A", delay := 3, nextStation := "B", eta := 0 }]
      "T1" "noop" 0
      { id := "T1", name := "Train T1", status := "on-time",
        currentLocation := "A", delay := 3, nextStation := "B", eta := 0 } rfl).2.2.2.1
      (by decide) (by decide) (by decide)⟩
example :
    transformTrain 0
      { id := "T1", priority := 1, planned_departure := 0,
        route_sections := ["S1", "S2"], due_time := none,
        current_delay_minutes := some 7 } =
      { id := "T1", name := "Train T1", status := "delayed",
        currentLocation := "S1", delay := 7, nextStation := "S2", eta := 0 } := rfl
